import Mathlib

/-!
Shallow embedding of the Cloudflare Worker in `src/worker.js` (QR code
generator with embedded logo) and verification of its specification.

Modelling conventions:
* Byte buffers (`ArrayBuffer` / `Uint8Array`) are `List Nat` with entries
  understood to lie in 0..255.
* A JavaScript `await` that may throw is an `Except String α`, the `String`
  being `error.message`.
* `fetch` is split by call shape: plain GETs (`fetchGet`), the POST to the
  HTML-to-image service `hcti.io` (`fetchHcti`, consumed via `.json()`),
  and the POST to the SVG-to-PNG service `api.apiflash.com`
  (`fetchApiflash`, consumed via `.arrayBuffer()`).  Each is a function of
  the request payload, so "the same responses from the external services"
  means "the same `Env`".
* `btoa(String.fromCharCode(...new Uint8Array(qrBuffer)))` is base64 of the
  buffer; the possibility that this spread/encoding throws at runtime
  (e.g. for oversized buffers) is the flag `btoaSpreadThrows`.
* Instrumented variants (`...T`) additionally return the ordered list of
  external service calls attempted, mirroring the `fetch` sites in the
  source line by line.
-/

namespace QrWorker

abbrev Bytes := List Nat

/-- UTF-8 encoding of one character (standard 1–4 byte cases). -/
def utf8Bytes (c : Char) : List Nat :=
  let n := c.toNat
  if n < 128 then [n]
  else if n < 2048 then [192 + n / 64, 128 + n % 64]
  else if n < 65536 then [224 + n / 4096, 128 + n / 64 % 64, 128 + n % 64]
  else [240 + n / 262144, 128 + n / 4096 % 64, 128 + n / 64 % 64, 128 + n % 64]

/-- Model of `new TextEncoder().encode(s)`: UTF-8 bytes of a string. -/
def textEncode (s : String) : Bytes :=
  (s.data.map utf8Bytes).flatten

/-- The base64 alphabet used by `btoa`. -/
def b64Alphabet : String :=
  "ABCDEFGHIJKLMNOPQRSTUVWXYZabcdefghijklmnopqrstuvwxyz0123456789+/"

def b64Char (n : Nat) : Char := b64Alphabet.data.getD n 'A'

/-- Base64: `btoa` over raw bytes (as produced by `String.fromCharCode` on a
`Uint8Array`): 3 input bytes become 4 alphabet characters, with `=`
padding. -/
def btoa : Bytes → String
  | [] => ""
  | [a] => String.mk [b64Char (a / 4), b64Char (a % 4 * 16), '=', '=']
  | [a, b] => String.mk [b64Char (a / 4), b64Char (a % 4 * 16 + b / 16),
      b64Char (b % 16 * 4), '=']
  | a :: b :: c :: rest =>
      String.mk [b64Char (a / 4), b64Char (a % 4 * 16 + b / 16),
        b64Char (b % 16 * 4 + c / 64), b64Char (c % 64)] ++ btoa rest

/-- Base64 of an ordinary (latin1) string, as in `btoa(svgContent)`. -/
def btoaStr (s : String) : String :=
  btoa (s.data.map Char.toNat)

def hexDigit (n : Nat) : Char := "0123456789ABCDEF".data.getD n '0'

/-- Characters `encodeURIComponent` leaves unescaped:
`A-Z a-z 0-9`, hyphen, underscore, dot, bang, tilde, star, apostrophe and parentheses. -/
def uriUnreserved (c : Char) : Bool :=
  (65 ≤ c.toNat && c.toNat ≤ 90) || (97 ≤ c.toNat && c.toNat ≤ 122) ||
  (48 ≤ c.toNat && c.toNat ≤ 57) ||
  c = '-' || c = '_' || c = '.' || c = '!' || c = '~' || c = '*' ||
  c = Char.ofNat 39 || c = '(' || c = ')'

def percentByte (b : Nat) : String :=
  String.mk ['%', hexDigit (b / 16), hexDigit (b % 16)]

/-- JavaScript `encodeURIComponent`: unreserved characters verbatim, all
others percent-encoded per UTF-8 byte. -/
def encodeURIComponent (s : String) : String :=
  s.data.foldl
    (fun acc c =>
      acc ++ (if uriUnreserved c then String.mk [c]
              else String.join ((utf8Bytes c).map percentByte))) ""

/-! ### External-service interface -/

/-- A `fetch` response consumed via `.arrayBuffer()`. -/
structure FetchResult where
  ok : Bool
  bytes : Bytes
  deriving Repr, DecidableEq

/-- The `hcti.io` response: `.ok`, and the result of
`(await resp.json()).url` — `Except` because `.json()` may throw, `Option`
because `url` may be absent. -/
structure HctiResult where
  ok : Bool
  json : Except String (Option String)

/-- Payload of the POST to `https://hcti.io/v1/image` (source lines
134–146), including the demo-credential Authorization header of line 138. -/
structure HctiRequest where
  authorization : String
  html : String
  width : Nat
  height : Nat
  device_scale_factor : Nat

/-- Payload of the POST to `https://api.apiflash.com/v1/urltoimage`
(source lines 186–198). -/
structure ApiflashRequest where
  access_key : String
  url : String
  format : String
  width : Nat
  height : Nat

/-- The per-request view of the external world. -/
structure Env where
  fetchGet : String → Except String FetchResult
  fetchHcti : HctiRequest → Except String HctiResult
  fetchApiflash : ApiflashRequest → Except String FetchResult
  btoaSpreadThrows : Bool

/-- Tags for the external calls attempted, in source order. -/
inductive ServiceCall where
  | qr
  | hcti
  | hctiResult
  | logo
  | svgToPng
  deriving Repr, DecidableEq

/-! ### Constants and templates from the source -/

def logoUrl : String :=
  "https://hebbkx1anhila5yf.public.blob.vercel-storage.com/20200329_155448-aYJ8X5J2RDJUx0CG010GkcR7kMz6b3.png"

/-- The QR Server API URL built at source line 55. -/
def qrUrl (qrSize : Nat) (text : String) : String :=
  "https://api.qrserver.com/v1/create-qr-code/?size=" ++ toString qrSize ++
  "x" ++ toString qrSize ++ "&data=" ++ encodeURIComponent text ++
  "&format=png&margin=10"

/-- The HTML template of source lines 92–130 (the handler only ever passes
`qrSize = 300`; `\x7b`/`\x7d` denote the literal braces of the CSS). -/
def htmlContent (qrSize : Nat) (qrBase64 : String) : String :=
  "\n    <!DOCTYPE html>\n    <html>\n    <head>\n        <style>\n" ++
  "            body \x7b margin: 0; padding: 0; \x7d\n" ++
  "            .container \x7b position: relative; width: " ++ toString qrSize ++
    "px; height: " ++ toString qrSize ++ "px; \x7d\n" ++
  "            .qr-image \x7b width: 100%; height: 100%; \x7d\n" ++
  "            .logo \x7b \n" ++
  "                position: absolute; \n" ++
  "                top: 50%; \n" ++
  "                left: 50%; \n" ++
  "                transform: translate(-50%, -50%);\n" ++
  "                width: 60px; \n" ++
  "                height: 60px; \n" ++
  "                background: white; \n" ++
  "                border-radius: 50%; \n" ++
  "                display: flex; \n" ++
  "                align-items: center; \n" ++
  "                justify-content: center;\n" ++
  "                box-shadow: 0 2px 8px rgba(0,0,0,0.3);\n" ++
  "            \x7d\n" ++
  "            .logo img \x7b \n" ++
  "                width: 50px; \n" ++
  "                height: 50px; \n" ++
  "                border-radius: 50%; \n" ++
  "            \x7d\n" ++
  "        </style>\n    </head>\n    <body>\n" ++
  "        <div class=\"container\">\n" ++
  "            <img class=\"qr-image\" src=\"data:image/png;base64," ++
    qrBase64 ++ "\" />\n" ++
  "            <div class=\"logo\">\n" ++
  "                <img src=\"" ++ logoUrl ++ "\" />\n" ++
  "            </div>\n        </div>\n    </body>\n    </html>\n    "

/-- The SVG template of source lines 173–182.  JavaScript computes
`qrSize / 2` and `qrSize / 2 - 25` in floating point; the handler only ever
passes `qrSize = 300`, where that agrees with `Nat` division. -/
def svgContent (qrSize : Nat) (qrBase64 logoBase64 : String) : String :=
  "\n    <svg width=\"" ++ toString qrSize ++ "\" height=\"" ++
    toString qrSize ++ "\" xmlns=\"http://www.w3.org/2000/svg\">\n" ++
  "      <image href=\"data:image/png;base64," ++ qrBase64 ++
    "\" width=\"" ++ toString qrSize ++ "\" height=\"" ++
    toString qrSize ++ "\" />\n" ++
  "      <circle cx=\"" ++ toString (qrSize / 2) ++ "\" cy=\"" ++
    toString (qrSize / 2) ++
    "\" r=\"35\" fill=\"white\" stroke=\"#ddd\" stroke-width=\"2\" />\n" ++
  "      <image href=\"data:image/png;base64," ++ logoBase64 ++ "\" \n" ++
  "             x=\"" ++ toString (qrSize / 2 - 25) ++ "\" y=\"" ++
    toString (qrSize / 2 - 25) ++ "\" \n" ++
  "             width=\"50\" height=\"50\" \n" ++
  "             style=\"clip-path: circle(25px at 25px 25px);\" />\n" ++
  "    </svg>\n    "

/-- The request object sent to `hcti.io` (source lines 140–145). -/
def hctiReq (qrSize : Nat) (html : String) : HctiRequest :=
  { authorization := "Basic " ++ btoaStr "demo:demo",
    html := html, width := qrSize, height := qrSize,
    device_scale_factor := 2 }

/-- The request object sent to `api.apiflash.com` (source lines 191–197). -/
def apiflashReq (qrSize : Nat) (svg : String) : ApiflashRequest :=
  { access_key := "demo",
    url := "data:image/svg+xml;base64," ++ btoaStr svg,
    format := "png", width := qrSize, height := qrSize }

/-! ### The composition pipeline (`addLogoToQR`, source lines 83–214) -/

/-- The inner `try` of source lines 133–159: POST to `hcti.io`, and on a
success response with a `url` field, fetch the rendered image.  Any thrown
error is caught, yielding fall-through (`none`).  Also returns the calls
attempted. -/
def tryHtmlToImage (env : Env) (html : String) (qrSize : Nat) :
    Option Bytes × List ServiceCall :=
  match env.fetchHcti (hctiReq qrSize html) with
  | .error _ => (none, [.hcti])
  | .ok conversionResponse =>
    if conversionResponse.ok then
      match conversionResponse.json with
      | .error _ => (none, [.hcti])
      | .ok none => (none, [.hcti])
      | .ok (some u) =>
        match env.fetchGet u with
        | .error _ => (none, [.hcti, .hctiResult])
        | .ok imageResponse =>
          if imageResponse.ok then (some imageResponse.bytes, [.hcti, .hctiResult])
          else (none, [.hcti, .hctiResult])
    else (none, [.hcti])

/-- The inner `try` of source lines 185–205: POST the SVG (as a base64 data
URL) to `api.apiflash.com`; on a success response return its bytes, any
failure or thrown error falls through (`none`). -/
def trySvgToPng (env : Env) (qrSize : Nat) (svg : String) : Option Bytes :=
  match env.fetchApiflash (apiflashReq qrSize svg) with
  | .error _ => none
  | .ok svgToPngResponse =>
    if svgToPngResponse.ok then some svgToPngResponse.bytes else none

/-- Pipeline `addLogoToQR` (source lines 83–214), instrumented with the list of
external calls attempted.  The outer `catch` (lines 209–213) returns the
original `qrBuffer`; it fires when the base64 spread over `qrBuffer`
throws (line 123) or when the un-guarded logo fetch (line 165) throws. -/
def addLogoToQRT (env : Env) (qrBuffer : Bytes) (qrSize : Nat) :
    Bytes × List ServiceCall :=
  if env.btoaSpreadThrows then (qrBuffer, [])
  else
    let html := htmlContent qrSize (btoa qrBuffer)
    match tryHtmlToImage env html qrSize with
    | (some bs, tr) => (bs, tr)
    | (none, tr) =>
      let qrBase64 := btoa qrBuffer
      match env.fetchGet logoUrl with
      | .error _ => (qrBuffer, tr ++ [.logo])
      | .ok logoResponse =>
        let logoBase64 := if logoResponse.ok then btoa logoResponse.bytes else ""
        let svg := svgContent qrSize qrBase64 logoBase64
        match trySvgToPng env qrSize svg with
        | some bs => (bs, tr ++ [.logo, .svgToPng])
        | none => (textEncode svg, tr ++ [.logo, .svgToPng])

/-- Projection `addLogoToQR`: the bytes the pipeline hands back to the handler. -/
def addLogoToQR (env : Env) (qrBuffer : Bytes) (qrSize : Nat) : Bytes :=
  (addLogoToQRT env qrBuffer qrSize).fst

/-! ### The HTTP layer -/

/-- The `text` field of a parsed JSON POST body (`none` = absent). -/
structure JsonBody where
  text : Option String
  deriving Repr, DecidableEq

/-- An inbound request as the worker observes it. -/
structure Request where
  method : String
  pathname : String
  textParam : Option String
  jsonBody : Except String JsonBody

/-- Response bodies.  The static home page (`getHomePage`, source lines
216–843) is a fixed string whose content the spec places out of scope, so
it is a dedicated constructor; likewise the `"Not Found"` text.
`jsonError m` is `JSON.stringify({ error: m })`. -/
inductive Body where
  | empty
  | homePage
  | notFound
  | jsonError (msg : String)
  | image (bytes : Bytes)
  deriving Repr, DecidableEq

structure HttpResponse where
  status : Nat
  body : Body
  headers : List (String × String)
  deriving Repr, DecidableEq

def getHeader (r : HttpResponse) (k : String) : Option String :=
  (r.headers.find? (fun p => p.fst = k)).map (fun p => p.snd)

/-- The CORS headers of source lines 9–13. -/
def corsHeaders : List (String × String) :=
  [("Access-Control-Allow-Origin", "*"),
   ("Access-Control-Allow-Methods", "GET, POST, OPTIONS"),
   ("Access-Control-Allow-Headers", "Content-Type")]

/-- JavaScript `x || d` for a string-or-missing value: the default replaces
both absent (`null`/`undefined`) and empty-string values. -/
def jsOr (v : Option String) (d : String) : String :=
  match v with
  | none => d
  | some s => if s = "" then d else s

/-- Text extraction of source lines 36–44: query parameter for GET, JSON
body field for POST (whose parse may throw), `""` for any other method. -/
def extractText (req : Request) : Except String String :=
  if req.method = "GET" then .ok (jsOr req.textParam "Hello World")
  else if req.method = "POST" then
    match req.jsonBody with
    | .error e => .error e
    | .ok body => .ok (jsOr body.text "Hello World")
  else .ok ""

/-- Handler `handleQRGeneration` (source lines 34–81), instrumented with the
external calls attempted.  A thrown error anywhere in the `try` block —
JSON parse failure, a throwing QR fetch, or the explicit
`throw new Error("Failed to generate QR code")` — reaches the `catch` of
lines 75–80 and becomes a 500 with the message as JSON error body. -/
def handleQRGenerationT (env : Env) (req : Request)
    (cors : List (String × String)) : HttpResponse × List ServiceCall :=
  match extractText req with
  | .error e =>
    ({ status := 500, body := .jsonError e,
       headers := [("Content-Type", "application/json")] ++ cors }, [])
  | .ok text =>
    if text = "" then
      ({ status := 400, body := .jsonError "Text parameter is required",
         headers := [("Content-Type", "application/json")] ++ cors }, [])
    else
      let qrSize := 300
      match env.fetchGet (qrUrl qrSize text) with
      | .error e =>
        ({ status := 500, body := .jsonError e,
           headers := [("Content-Type", "application/json")] ++ cors }, [.qr])
      | .ok qrResponse =>
        if qrResponse.ok then
          let p := addLogoToQRT env qrResponse.bytes qrSize
          ({ status := 200, body := .image p.fst,
             headers := [("Content-Type", "image/png"),
                         ("Cache-Control", "public, max-age=3600")] ++ cors },
           .qr :: p.snd)
        else
          ({ status := 500, body := .jsonError "Failed to generate QR code",
             headers := [("Content-Type", "application/json")] ++ cors }, [.qr])

def handleQRGeneration (env : Env) (req : Request)
    (cors : List (String × String)) : HttpResponse :=
  (handleQRGenerationT env req cors).fst

/-- The exported `fetch` handler (source lines 4–32), instrumented. -/
def workerFetchT (env : Env) (req : Request) :
    HttpResponse × List ServiceCall :=
  if req.method = "OPTIONS" then
    ({ status := 200, body := .empty, headers := corsHeaders }, [])
  else if req.pathname = "/" then
    ({ status := 200, body := .homePage,
       headers := [("Content-Type", "text/html")] ++ corsHeaders }, [])
  else if req.pathname = "/generate" then
    handleQRGenerationT env req corsHeaders
  else
    ({ status := 404, body := .notFound, headers := corsHeaders }, [])

def workerFetch (env : Env) (req : Request) : HttpResponse :=
  (workerFetchT env req).fst

/-! ### Helper lemmas -/

theorem jsOr_hello_ne (v : Option String) : jsOr v "Hello World" ≠ "" := by
  unfold jsOr
  cases v with
  | none => simp
  | some s =>
    dsimp only
    split
    · simp
    · assumption

theorem extract_ok_ne_empty (req : Request) (t : String)
    (hm : req.method = "GET" ∨ req.method = "POST")
    (ht : extractText req = Except.ok t) : t ≠ "" := by
  unfold extractText at ht
  rcases hm with h | h
  · rw [h] at ht
    simp at ht
    rw [← ht]
    exact jsOr_hello_ne _
  · rw [h] at ht
    rcases hjb : req.jsonBody with e | body
    · rw [hjb] at ht
      simp at ht
    · rw [hjb] at ht
      simp at ht
      rw [← ht]
      exact jsOr_hello_ne _

theorem worker_generate (env : Env) (req : Request)
    (hp : req.pathname = "/generate") (hm : ¬ req.method = "OPTIONS") :
    workerFetchT env req = handleQRGenerationT env req corsHeaders := by
  unfold workerFetchT
  rw [if_neg hm, hp]
  simp

theorem handle_qr_ok (env : Env) (req : Request) (cors : List (String × String))
    (t : String) (bs : Bytes)
    (ht : extractText req = Except.ok t) (hne : t ≠ "")
    (hq : env.fetchGet (qrUrl 300 t) = Except.ok { ok := true, bytes := bs }) :
    handleQRGenerationT env req cors =
      ({ status := 200, body := .image (addLogoToQR env bs 300),
         headers := [("Content-Type", "image/png"),
                     ("Cache-Control", "public, max-age=3600")] ++ cors },
       .qr :: (addLogoToQRT env bs 300).snd) := by
  unfold handleQRGenerationT
  rw [ht]
  simp [hne, hq, addLogoToQR]

theorem handle_qr_notok (env : Env) (req : Request) (cors : List (String × String))
    (t : String) (resp : FetchResult)
    (ht : extractText req = Except.ok t) (hne : t ≠ "")
    (hq : env.fetchGet (qrUrl 300 t) = Except.ok resp) (hko : resp.ok = false) :
    handleQRGenerationT env req cors =
      ({ status := 500, body := .jsonError "Failed to generate QR code",
         headers := [("Content-Type", "application/json")] ++ cors },
       [.qr]) := by
  unfold handleQRGenerationT
  rw [ht]
  simp [hne, hq, hko]

theorem handle_headers (env : Env) (req : Request) (cors : List (String × String)) :
    ∃ l, (handleQRGenerationT env req cors).fst.headers = l ++ cors := by
  unfold handleQRGenerationT
  rcases hE : extractText req with e | t
  · exact ⟨_, rfl⟩
  · dsimp only
    by_cases hT : t = ""
    · simp only [hT, if_pos rfl]
      exact ⟨_, rfl⟩
    · simp only [if_neg hT]
      rcases hQ : env.fetchGet (qrUrl 300 t) with e | resp
      · exact ⟨_, rfl⟩
      · by_cases hR : resp.ok
        · simp only [hR, if_pos rfl]
          exact ⟨_, rfl⟩
        · simp only [if_neg hR]
          exact ⟨_, rfl⟩

theorem handle_status_ne_400 (env : Env) (req : Request)
    (cors : List (String × String)) (t : String)
    (ht : extractText req = Except.ok t) (hne : t ≠ "") :
    (handleQRGenerationT env req cors).fst.status ≠ 400 := by
  unfold handleQRGenerationT
  rw [ht]
  dsimp only
  rw [if_neg hne]
  rcases hQ : env.fetchGet (qrUrl 300 t) with e | resp
  · simp
  · by_cases hR : resp.ok = true <;> simp [hR]

/-! ### Concrete environments and requests used by the witnesses -/

/-- All overlay services down, QR service up with a tiny PNG stand-in. -/
def envQrOk : Env :=
  { fetchGet := fun _ => Except.ok { ok := true, bytes := [1, 2, 3] },
    fetchHcti := fun _ => Except.error "service down",
    fetchApiflash := fun _ => Except.error "service down",
    btoaSpreadThrows := false }

/-- QR service answering 503 (non-ok), overlay services down. -/
def envQrDown : Env :=
  { fetchGet := fun _ => Except.ok { ok := false, bytes := [] },
    fetchHcti := fun _ => Except.error "service down",
    fetchApiflash := fun _ => Except.error "service down",
    btoaSpreadThrows := false }

def reqGetHello : Request :=
  { method := "GET", pathname := "/generate", textParam := some "Hello",
    jsonBody := Except.error "unused" }

def reqGetNoText : Request :=
  { method := "GET", pathname := "/generate", textParam := none,
    jsonBody := Except.error "unused" }

/-! ### C2: QR success means a 200 image, whatever the overlays do -/

/-- C2: for every GET or POST request to `/generate`, if the
QR-generation fetch returns a success status, the response is 200 with an
image payload (the pipeline output), regardless of how the HTML-to-image
call, the logo fetch, or the SVG-to-PNG call behave — never a 500. -/
theorem C2_qr_success_never_500 (env : Env) (req : Request) (t : String)
    (bs : Bytes)
    (hp : req.pathname = "/generate")
    (hm : req.method = "GET" ∨ req.method = "POST")
    (ht : extractText req = Except.ok t)
    (hq : env.fetchGet (qrUrl 300 t) = Except.ok { ok := true, bytes := bs }) :
    (workerFetch env req).status = 200 ∧
    (workerFetch env req).body = .image (addLogoToQR env bs 300) := by
  have hne := extract_ok_ne_empty req t hm ht
  have ho : ¬ req.method = "OPTIONS" := by
    rcases hm with h | h <;> rw [h] <;> decide
  unfold workerFetch
  rw [worker_generate env req hp ho,
      handle_qr_ok env req corsHeaders t bs ht hne hq]
  exact ⟨rfl, rfl⟩

/-- Witness for C2: overlay services down, QR up, GET `?text=Hello`. -/
theorem C2_witness :
    (workerFetch envQrOk reqGetHello).status = 200 ∧
    (workerFetch envQrOk reqGetHello).body =
      .image (addLogoToQR envQrOk [1, 2, 3] 300) :=
  C2_qr_success_never_500 envQrOk reqGetHello "Hello" [1, 2, 3]
    rfl (Or.inl rfl) rfl rfl

/-! ### C3: QR non-success status means the fixed 500 JSON error -/

/-- C3: for every GET or POST request to `/generate` with non-empty
effective text, if the QR-generation service returns a non-success status,
the response is 500 with JSON body whose error field is
`"Failed to generate QR code"`, and no image bytes are returned. -/
theorem C3_qr_failure_gives_500 (env : Env) (req : Request) (t : String)
    (resp : FetchResult)
    (hp : req.pathname = "/generate")
    (hm : req.method = "GET" ∨ req.method = "POST")
    (ht : extractText req = Except.ok t) (hne : t ≠ "")
    (hq : env.fetchGet (qrUrl 300 t) = Except.ok resp) (hko : resp.ok = false) :
    (workerFetch env req).status = 500 ∧
    (workerFetch env req).body = .jsonError "Failed to generate QR code" ∧
    ∀ bs, (workerFetch env req).body ≠ .image bs := by
  have ho : ¬ req.method = "OPTIONS" := by
    rcases hm with h | h <;> rw [h] <;> decide
  unfold workerFetch
  rw [worker_generate env req hp ho,
      handle_qr_notok env req corsHeaders t resp ht hne hq hko]
  exact ⟨rfl, rfl, by simp⟩

/-- Witness for C3: QR service down (non-ok status), GET `?text=Hello`. -/
theorem C3_witness :
    (workerFetch envQrDown reqGetHello).status = 500 ∧
    (workerFetch envQrDown reqGetHello).body =
      .jsonError "Failed to generate QR code" ∧
    ∀ bs, (workerFetch envQrDown reqGetHello).body ≠ .image bs :=
  C3_qr_failure_gives_500 envQrDown reqGetHello "Hello"
    { ok := false, bytes := [] } rfl (Or.inl rfl) rfl (by decide) rfl rfl

/-! ### C4: absent or empty text defaults to "Hello World", never a 400 -/

/-- C4: a GET to `/generate` whose `text` parameter is absent or empty,
or a POST whose JSON body lacks a `text` field or has it empty, proceeds
with `text = "Hello World"`; the 400 "Text parameter is required" branch is
not taken, and if the QR-generation service succeeds the response is 200. -/
theorem C4_empty_text_defaults (env : Env) (req : Request)
    (hp : req.pathname = "/generate")
    (hcase :
      (req.method = "GET" ∧ (req.textParam = none ∨ req.textParam = some "")) ∨
      (req.method = "POST" ∧ ∃ body, req.jsonBody = Except.ok body ∧
        (body.text = none ∨ body.text = some ""))) :
    extractText req = Except.ok "Hello World" ∧
    (workerFetch env req).status ≠ 400 ∧
    (∀ bs, env.fetchGet (qrUrl 300 "Hello World") =
        Except.ok { ok := true, bytes := bs } →
      (workerFetch env req).status = 200) := by
  have hext : extractText req = Except.ok "Hello World" := by
    rcases hcase with ⟨hm, hv⟩ | ⟨hm, body, hjb, hv⟩
    · unfold extractText
      rw [hm]
      rcases hv with h | h <;> rw [h] <;> simp [jsOr]
    · unfold extractText
      rw [hm, hjb]
      rcases hv with h | h <;> simp [h, jsOr]
  have ho : ¬ req.method = "OPTIONS" := by
    rcases hcase with ⟨hm, _⟩ | ⟨hm, _⟩ <;> rw [hm] <;> decide
  refine ⟨hext, ?_, ?_⟩
  · unfold workerFetch
    rw [worker_generate env req hp ho]
    exact handle_status_ne_400 env req corsHeaders "Hello World" hext (by decide)
  · intro bs hq
    unfold workerFetch
    rw [worker_generate env req hp ho,
        handle_qr_ok env req corsHeaders "Hello World" bs hext (by decide) hq]

/-- Witness for C4: GET to `/generate` with no `text` parameter at all. -/
theorem C4_witness :
    extractText reqGetNoText = Except.ok "Hello World" ∧
    (workerFetch envQrOk reqGetNoText).status ≠ 400 ∧
    (∀ bs, envQrOk.fetchGet (qrUrl 300 "Hello World") =
        Except.ok { ok := true, bytes := bs } →
      (workerFetch envQrOk reqGetNoText).status = 200) :=
  C4_empty_text_defaults envQrOk reqGetNoText rfl (Or.inl ⟨rfl, Or.inl rfl⟩)

/-! ### C8: GET and POST with the same text behave identically -/

/-- C8: for every non-empty text, a GET to `/generate?text=<text>` and
a POST to `/generate` with body `{"text": <text>}`, run against the same
external-service responses (the same `Env`), yield the very same response. -/
theorem C8_method_invariance (env : Env) (t : String) (tp : Option String)
    (jb : Except String JsonBody) (ht : t ≠ "") :
    workerFetch env
      { method := "GET", pathname := "/generate", textParam := some t,
        jsonBody := jb } =
    workerFetch env
      { method := "POST", pathname := "/generate", textParam := tp,
        jsonBody := Except.ok { text := some t } } := by
  have h1 : extractText
      { method := "GET", pathname := "/generate", textParam := some t,
        jsonBody := jb } = Except.ok t := by
    unfold extractText
    simp [jsOr, ht]
  have h2 : extractText
      { method := "POST", pathname := "/generate", textParam := tp,
        jsonBody := Except.ok { text := some t } } = Except.ok t := by
    unfold extractText
    simp [jsOr, ht]
  unfold workerFetch
  rw [worker_generate _ _ rfl (by simp), worker_generate _ _ rfl (by simp)]
  unfold handleQRGenerationT
  rw [h1, h2]

/-- Witness for C8: text `"Hello"` against `envQrOk`. -/
theorem C8_witness :
    workerFetch envQrOk
      { method := "GET", pathname := "/generate", textParam := some "Hello",
        jsonBody := Except.error "unused" } =
    workerFetch envQrOk
      { method := "POST", pathname := "/generate", textParam := none,
        jsonBody := Except.ok { text := some "Hello" } } :=
  C8_method_invariance envQrOk "Hello" none (Except.error "unused") (by decide)

theorem handle_200_content_type (env : Env) (req : Request)
    (cors : List (String × String))
    (hs : (handleQRGenerationT env req cors).fst.status = 200) :
    getHeader (handleQRGenerationT env req cors).fst "Content-Type" =
      some "image/png" := by
  rcases hE : extractText req with e | t
  · have h : handleQRGenerationT env req cors =
        ({ status := 500, body := .jsonError e,
           headers := [("Content-Type", "application/json")] ++ cors }, []) := by
      unfold handleQRGenerationT
      rw [hE]
    rw [h] at hs
    simp at hs
  · by_cases hT : t = ""
    · have h : handleQRGenerationT env req cors =
          ({ status := 400, body := .jsonError "Text parameter is required",
             headers := [("Content-Type", "application/json")] ++ cors }, []) := by
        unfold handleQRGenerationT
        rw [hE]
        simp [hT]
      rw [h] at hs
      simp at hs
    · rcases hQ : env.fetchGet (qrUrl 300 t) with e | resp
      · have h : handleQRGenerationT env req cors =
            ({ status := 500, body := .jsonError e,
               headers := [("Content-Type", "application/json")] ++ cors },
             [.qr]) := by
          unfold handleQRGenerationT
          rw [hE]
          simp [hT, hQ]
        rw [h] at hs
        simp at hs
      · by_cases hR : resp.ok = true
        · have h : handleQRGenerationT env req cors =
              ({ status := 200,
                 body := .image (addLogoToQRT env resp.bytes 300).fst,
                 headers := [("Content-Type", "image/png"),
                             ("Cache-Control", "public, max-age=3600")] ++ cors },
               .qr :: (addLogoToQRT env resp.bytes 300).snd) := by
            unfold handleQRGenerationT
            rw [hE]
            simp [hT, hQ, hR]
          rw [h]
          rfl
        · have h : handleQRGenerationT env req cors =
              ({ status := 500,
                 body := .jsonError "Failed to generate QR code",
                 headers := [("Content-Type", "application/json")] ++ cors },
               [.qr]) := by
            unfold handleQRGenerationT
            rw [hE]
            simp [hT, hQ, hR]
          rw [h] at hs
          simp at hs

/-! ### C1: declared Content-Type on the deep fallback -/

/-- C1 counterexample: with the QR service up, the logo fetch up,
and both conversion services down, the deep fallback is reached: the
response body is the raw SVG markup — yet its declared `Content-Type` is
`image/png`, not the `image/svg+xml` the claim asserts (the handler at
source lines 68–74 declares `image/png` unconditionally). -/
theorem C1_counterexample :
    (workerFetch envQrOk reqGetHello).body =
      Body.image (textEncode (svgContent 300 (btoa [1, 2, 3]) (btoa [1, 2, 3]))) ∧
    getHeader (workerFetch envQrOk reqGetHello) "Content-Type" = some "image/png" ∧
    ¬ getHeader (workerFetch envQrOk reqGetHello) "Content-Type" =
        some "image/svg+xml" := by
  refine ⟨rfl, rfl, ?_⟩
  intro h
  have h0 : getHeader (workerFetch envQrOk reqGetHello) "Content-Type" =
      some "image/png" := rfl
  rw [h0] at h
  exact absurd h (by decide)

/-- C1 amended: if the deep fallback of the pipeline is reached (both the
HTML-to-image service and the SVG-to-PNG conversion fail while the QR fetch
and logo handling raise no exception), the `/generate` response body is the
raw SVG markup, but its declared `Content-Type` header is still
`image/png`: in every successful (status 200) non-preflight case on
`/generate` the declared `Content-Type` is `image/png`. -/
theorem C1_amended_png_even_on_svg_fallback (env : Env) (req : Request)
    (qrBuffer logoBytes : Bytes) (qrSize : Nat)
    (hb : env.btoaSpreadThrows = false)
    (hh : (tryHtmlToImage env (htmlContent qrSize (btoa qrBuffer)) qrSize).fst = none)
    (hl : env.fetchGet logoUrl = Except.ok { ok := true, bytes := logoBytes })
    (ha : trySvgToPng env qrSize
        (svgContent qrSize (btoa qrBuffer) (btoa logoBytes)) = none) :
    addLogoToQR env qrBuffer qrSize =
      textEncode (svgContent qrSize (btoa qrBuffer) (btoa logoBytes)) ∧
    (req.pathname = "/generate" → ¬ req.method = "OPTIONS" →
      (workerFetch env req).status = 200 →
      getHeader (workerFetch env req) "Content-Type" = some "image/png") := by
  constructor
  · unfold addLogoToQR addLogoToQRT
    simp only [hb, Bool.false_eq_true, if_false]
    rcases hTri : tryHtmlToImage env (htmlContent qrSize (btoa qrBuffer)) qrSize
      with ⟨o, tr⟩
    rw [hTri] at hh
    dsimp only at hh
    subst hh
    simp [hl, ha]
  · intro hp ho hs
    unfold workerFetch at hs ⊢
    rw [worker_generate env req hp ho] at hs ⊢
    exact handle_200_content_type env req corsHeaders hs

/-- Witness for the amended C1: deep fallback against `envQrOk` (both
conversion services down, logo up), GET `?text=Hello`. -/
theorem C1_witness :
    addLogoToQR envQrOk [1, 2, 3] 300 =
      textEncode (svgContent 300 (btoa [1, 2, 3]) (btoa [1, 2, 3])) ∧
    getHeader (workerFetch envQrOk reqGetHello) "Content-Type" =
      some "image/png" := by
  have h := C1_amended_png_even_on_svg_fallback envQrOk reqGetHello
    [1, 2, 3] [1, 2, 3] 300 rfl rfl rfl rfl
  exact ⟨h.1, h.2 rfl (by decide) rfl⟩

/-! ### C6: every response carries the three CORS headers -/

/-- C6: every HTTP response produced by the worker — OPTIONS preflight,
home page, generation success, 400, 500, and 404 — carries all three
headers `Access-Control-Allow-Origin: *`,
`Access-Control-Allow-Methods: GET, POST, OPTIONS`, and
`Access-Control-Allow-Headers: Content-Type`. -/
theorem C6_cors_headers_always_present (env : Env) (req : Request) :
    ("Access-Control-Allow-Origin", "*") ∈ (workerFetch env req).headers ∧
    ("Access-Control-Allow-Methods", "GET, POST, OPTIONS") ∈ (workerFetch env req).headers ∧
    ("Access-Control-Allow-Headers", "Content-Type") ∈ (workerFetch env req).headers := by
  have h : ∃ l, (workerFetch env req).headers = l ++ corsHeaders := by
    unfold workerFetch workerFetchT
    by_cases h1 : req.method = "OPTIONS"
    · simp only [if_pos h1]
      exact ⟨[], rfl⟩
    · simp only [if_neg h1]
      by_cases h2 : req.pathname = "/"
      · simp only [if_pos h2]
        exact ⟨_, rfl⟩
      · simp only [if_neg h2]
        by_cases h3 : req.pathname = "/generate"
        · simp only [if_pos h3]
          exact handle_headers env req corsHeaders
        · simp only [if_neg h3]
          exact ⟨[], rfl⟩
  obtain ⟨l, hl⟩ := h
  rw [hl]
  refine ⟨?_, ?_, ?_⟩ <;> · rw [List.mem_append]
                            right
                            simp [corsHeaders]

/-! ### C9: non-GET/POST/OPTIONS methods on /generate get the 400 -/

/-- C9: for every request to `/generate` whose method is neither GET,
POST, nor OPTIONS, the response is status 400 with JSON body
`{"error": "Text parameter is required"}`, and no external service is
called (empty call trace): the `text` variable stays empty because neither
extraction branch runs, so the defensive empty-text check is reachable. -/
theorem C9_other_methods_get_400 (env : Env) (req : Request)
    (hp : req.pathname = "/generate")
    (hg : ¬ req.method = "GET") (hpo : ¬ req.method = "POST")
    (ho : ¬ req.method = "OPTIONS") :
    workerFetchT env req =
      ({ status := 400, body := .jsonError "Text parameter is required",
         headers := [("Content-Type", "application/json")] ++ corsHeaders },
       []) := by
  rw [worker_generate env req hp ho]
  unfold handleQRGenerationT extractText
  simp [hg, hpo]

/-- Witness for C9: a concrete PUT request to `/generate`. -/
theorem C9_witness :
    workerFetchT
      { fetchGet := fun _ => Except.error "unused",
        fetchHcti := fun _ => Except.error "unused",
        fetchApiflash := fun _ => Except.error "unused",
        btoaSpreadThrows := false }
      { method := "PUT", pathname := "/generate", textParam := none,
        jsonBody := Except.error "unused" } =
      ({ status := 400, body := .jsonError "Text parameter is required",
         headers := [("Content-Type", "application/json")] ++ corsHeaders },
       []) :=
  C9_other_methods_get_400 _ _ rfl (by decide) (by decide) (by decide)

/-! ### C10: malformed JSON POST body gives a 500 with the parse message -/

/-- C10: for every POST to `/generate` whose body fails to parse as
JSON, the thrown parse error reaches the outer catch of the handler: the
response is status 500 with JSON body `{"error": <parse error message>}` —
not the 400 input-error response — and no external service is called
(empty call trace). -/
theorem C10_bad_json_gives_500 (env : Env) (req : Request) (e : String)
    (hp : req.pathname = "/generate") (hm : req.method = "POST")
    (hj : req.jsonBody = Except.error e) :
    workerFetchT env req =
      ({ status := 500, body := .jsonError e,
         headers := [("Content-Type", "application/json")] ++ corsHeaders },
       []) := by
  rw [worker_generate env req hp (by rw [hm]; decide)]
  unfold handleQRGenerationT extractText
  rw [hm, hj]
  simp

/-! ### C5: any exception in the main block of the pipeline returns the QR -/

/-- C5: whenever an exception is thrown inside the composition
main `try` block of the pipeline — the base64 spread over the QR bytes throws,
or the (un-guarded) logo fetch throws after the HTML-to-image path fell
through — the pipeline returns exactly the original QR buffer, unchanged. -/
theorem C5_exception_returns_original_qr (env : Env) (qrBuffer : Bytes)
    (qrSize : Nat)
    (h : env.btoaSpreadThrows = true ∨
      ((tryHtmlToImage env (htmlContent qrSize (btoa qrBuffer)) qrSize).fst = none ∧
       ∃ e, env.fetchGet logoUrl = Except.error e)) :
    addLogoToQR env qrBuffer qrSize = qrBuffer := by
  unfold addLogoToQR addLogoToQRT
  by_cases hb : env.btoaSpreadThrows = true
  · simp [hb]
  · rcases h with h | ⟨hfst, e, hl⟩
    · exact absurd h hb
    · simp only [hb, if_neg, if_false]
      rcases hTri : tryHtmlToImage env (htmlContent qrSize (btoa qrBuffer)) qrSize
        with ⟨o, tr⟩
      rw [hTri] at hfst
      dsimp only at hfst
      subst hfst
      simp [hl]

/-- Witness for C5: the logo fetch throws while both conversion services
are down, for a three-byte QR buffer. -/
theorem C5_witness :
    addLogoToQR
      { fetchGet := fun _ => Except.error "logo fetch: network error",
        fetchHcti := fun _ => Except.error "service down",
        fetchApiflash := fun _ => Except.error "service down",
        btoaSpreadThrows := false }
      [7, 8, 9] 300 = [7, 8, 9] :=
  C5_exception_returns_original_qr _ [7, 8, 9] 300
    (Or.inr ⟨rfl, "logo fetch: network error", rfl⟩)

/-! ### C7: strict fallback order, one attempt each, first success wins -/

theorem tryHtml_trace (env : Env) (html : String) (qrSize : Nat) :
    (tryHtmlToImage env html qrSize).snd = [ServiceCall.hcti] ∨
    (tryHtmlToImage env html qrSize).snd =
      [ServiceCall.hcti, ServiceCall.hctiResult] := by
  unfold tryHtmlToImage
  rcases env.fetchHcti (hctiReq qrSize html) with e | resp
  · simp
  · dsimp only
    split
    · rcases resp.json with e | u
      · simp
      · rcases u with _ | u
        · simp
        · dsimp only
          rcases env.fetchGet u with e | ir
          · simp
          · dsimp only
            split <;> simp
    · simp

/-- The possible shapes of the call trace of the pipeline, tied to the
fall-through state of the HTML-to-image path. -/
theorem addLogo_structure (env : Env) (qrBuffer : Bytes) (qrSize : Nat) :
    (env.btoaSpreadThrows = true ∧ (addLogoToQRT env qrBuffer qrSize).snd = []) ∨
    ((∃ bs, (tryHtmlToImage env (htmlContent qrSize (btoa qrBuffer)) qrSize).fst = some bs) ∧
      (addLogoToQRT env qrBuffer qrSize).snd =
        (tryHtmlToImage env (htmlContent qrSize (btoa qrBuffer)) qrSize).snd) ∨
    ((tryHtmlToImage env (htmlContent qrSize (btoa qrBuffer)) qrSize).fst = none ∧
      ((addLogoToQRT env qrBuffer qrSize).snd =
         (tryHtmlToImage env (htmlContent qrSize (btoa qrBuffer)) qrSize).snd ++
           [ServiceCall.logo] ∨
       (addLogoToQRT env qrBuffer qrSize).snd =
         (tryHtmlToImage env (htmlContent qrSize (btoa qrBuffer)) qrSize).snd ++
           [ServiceCall.logo, ServiceCall.svgToPng])) := by
  unfold addLogoToQRT
  by_cases hb : env.btoaSpreadThrows = true
  · left
    simp [hb]
  · rcases hTri : tryHtmlToImage env (htmlContent qrSize (btoa qrBuffer)) qrSize
      with ⟨o, tr⟩
    rcases o with _ | bs
    · right; right
      refine ⟨rfl, ?_⟩
      simp only [hb, if_false, hTri]
      rcases env.fetchGet logoUrl with e | lresp
      · left; rfl
      · dsimp only
        rcases trySvgToPng env qrSize
            (svgContent qrSize (btoa qrBuffer)
              (if lresp.ok then btoa lresp.bytes else "")) with _ | bs2
        · right; rfl
        · right; rfl
    · right; left
      refine ⟨⟨bs, rfl⟩, ?_⟩
      simp [hb, hTri]

/-- C7: the pipeline tries its services in strict order with each call
attempted at most once: if the HTML-to-image call succeeds with a result
reference whose fetch succeeds, the pipeline returns those bytes and never
touches the logo fetch or the SVG-to-PNG service; the SVG-to-PNG service is
reached only after the HTML-to-image path has failed; and no service tag
ever occurs twice in the call trace. -/
theorem C7_strict_fallback_order (env : Env) (qrBuffer : Bytes)
    (qrSize : Nat) (u : String) (bs : Bytes) :
    (env.btoaSpreadThrows = false →
      env.fetchHcti (hctiReq qrSize (htmlContent qrSize (btoa qrBuffer))) =
        Except.ok { ok := true, json := Except.ok (some u) } →
      env.fetchGet u = Except.ok { ok := true, bytes := bs } →
      addLogoToQRT env qrBuffer qrSize =
        (bs, [ServiceCall.hcti, ServiceCall.hctiResult]) ∧
      ServiceCall.logo ∉ (addLogoToQRT env qrBuffer qrSize).snd ∧
      ServiceCall.svgToPng ∉ (addLogoToQRT env qrBuffer qrSize).snd) ∧
    (ServiceCall.svgToPng ∈ (addLogoToQRT env qrBuffer qrSize).snd →
      (tryHtmlToImage env (htmlContent qrSize (btoa qrBuffer)) qrSize).fst = none) ∧
    (∀ c, ((addLogoToQRT env qrBuffer qrSize).snd.count c) ≤ 1) := by
  have htr := tryHtml_trace env (htmlContent qrSize (btoa qrBuffer)) qrSize
  have hst := addLogo_structure env qrBuffer qrSize
  refine ⟨?_, ?_, ?_⟩
  · intro hb hc hu
    have hTri : tryHtmlToImage env (htmlContent qrSize (btoa qrBuffer)) qrSize =
        (some bs, [ServiceCall.hcti, ServiceCall.hctiResult]) := by
      unfold tryHtmlToImage
      rw [hc]
      simp [hu]
    have : addLogoToQRT env qrBuffer qrSize =
        (bs, [ServiceCall.hcti, ServiceCall.hctiResult]) := by
      unfold addLogoToQRT
      simp [hb, hTri]
    rw [this]
    exact ⟨rfl, by simp, by simp⟩
  · intro hmem
    rcases hst with ⟨_, hsnd⟩ | ⟨⟨bs2, _⟩, hsnd⟩ | ⟨hnone, _⟩
    · rw [hsnd] at hmem
      exact absurd hmem (by decide)
    · rw [hsnd] at hmem
      rcases htr with h | h <;> rw [h] at hmem <;> exact absurd hmem (by decide)
    · exact hnone
  · intro c
    rcases hst with ⟨_, hsnd⟩ | ⟨_, hsnd⟩ | ⟨_, hsnd | hsnd⟩ <;>
      rw [hsnd]
    · simp
    · rcases htr with h | h <;> rw [h] <;> cases c <;> decide
    · rcases htr with h | h <;> rw [h] <;> cases c <;> decide
    · rcases htr with h | h <;> rw [h] <;> cases c <;> decide

/-- Witness for C7: an environment where the HTML-to-image path fully
succeeds. -/
theorem C7_witness :
    (addLogoToQRT
        { fetchGet := fun _ => Except.ok { ok := true, bytes := [4, 5, 6] },
          fetchHcti := fun _ =>
            Except.ok { ok := true, json := Except.ok (some "https://hcti.io/v1/image/abc") },
          fetchApiflash := fun _ => Except.error "unused",
          btoaSpreadThrows := false }
        [1, 2, 3] 300 =
      ([4, 5, 6], [ServiceCall.hcti, ServiceCall.hctiResult]) ∧
     ServiceCall.logo ∉ (addLogoToQRT
        { fetchGet := fun _ => Except.ok { ok := true, bytes := [4, 5, 6] },
          fetchHcti := fun _ =>
            Except.ok { ok := true, json := Except.ok (some "https://hcti.io/v1/image/abc") },
          fetchApiflash := fun _ => Except.error "unused",
          btoaSpreadThrows := false } [1, 2, 3] 300).snd ∧
     ServiceCall.svgToPng ∉ (addLogoToQRT
        { fetchGet := fun _ => Except.ok { ok := true, bytes := [4, 5, 6] },
          fetchHcti := fun _ =>
            Except.ok { ok := true, json := Except.ok (some "https://hcti.io/v1/image/abc") },
          fetchApiflash := fun _ => Except.error "unused",
          btoaSpreadThrows := false } [1, 2, 3] 300).snd) :=
  (C7_strict_fallback_order _ [1, 2, 3] 300 "https://hcti.io/v1/image/abc"
    [4, 5, 6]).1 rfl rfl rfl

/-- Witness for C10: a concrete POST to `/generate` with an unparseable
body. -/
theorem C10_witness :
    workerFetchT
      { fetchGet := fun _ => Except.error "unused",
        fetchHcti := fun _ => Except.error "unused",
        fetchApiflash := fun _ => Except.error "unused",
        btoaSpreadThrows := false }
      { method := "POST", pathname := "/generate", textParam := none,
        jsonBody := Except.error "Unexpected token h in JSON at position 0" } =
      ({ status := 500,
         body := .jsonError "Unexpected token h in JSON at position 0",
         headers := [("Content-Type", "application/json")] ++ corsHeaders },
       []) :=
  C10_bad_json_gives_500 _ _ _ rfl rfl rfl

end QrWorker
